import Mathlib

/-!
# GigPilot core — verification of the sync engine and the chasing worker

A shallow embedding of the server-side core of GigPilot (Rust), covering:

* the chase state machine (`worker/state_machine.rs`),
* the chase executor (`worker/executor.rs`, `worker/services.rs`),
* conflict detection and resolution (`sync/conflict.rs`),
* the push engine (`sync/push.rs`),
* the pull engine (`sync/pull.rs`).

Modelling conventions:

* Timestamps (`DateTime<Utc>`) and dates (`NaiveDate`) are `Int`s; `NOW()`
  and `today` are explicit parameters threaded through the store operations.
* `rust_decimal::Decimal` amounts are `Int`s; `Decimal::from_str_exact`,
  RFC-3339 timestamp parsing and `%Y-%m-%d` date parsing are all modelled by
  an integer numeral parser, and the corresponding serialisations by
  `toString`.  Only
  the partiality of parsing and the round-trip behaviour matter to the
  verified properties, not the concrete numeral syntax.
* UUIDs are `Nat`s; device ids are `String`s.
* `serde_json::Value` is the inductive `Json` below.  serde_json (without the
  `preserve_order` feature) stores objects as `BTreeMap`s, so object field
  lists are kept sorted by key and duplicate-free; on such canonical values
  structural equality coincides with map equality.
* The database is explicit state: the `invoices` table is a list of rows, the
  `sync_changes` journal a list of rows plus a next-sequence counter.
  SQL `NULL` is `Option.none`; a stored `jsonb null` is `some Json.null`.
* Fallible Rust functions returning `anyhow::Result` become `Except String`.
-/

mutual

/-- Model of `serde_json::Value` (numbers restricted to integers, arrays not
needed by the verified code paths).  Objects are canonical: field lists sorted
by key, no duplicate keys. -/
inductive Json where
  | null : Json
  | bool (b : Bool) : Json
  | num (n : Int) : Json
  | str (s : String) : Json
  | obj (fields : JsonFields) : Json
deriving DecidableEq, Repr

/-- The field list of a JSON object (a `BTreeMap<String, Value>` in
serde_json: kept sorted by key, duplicate-free). -/
inductive JsonFields where
  | nil : JsonFields
  | cons (key : String) (val : Json) (rest : JsonFields) : JsonFields
deriving DecidableEq, Repr

end

namespace Json

/-- `Value::get(key)` on an object's field list. -/
def getField : JsonFields → String → Option Json
  | .nil, _ => none
  | .cons k v rest, key => if k = key then some v else getField rest key

/-- `Value::get` — `none` when the value is not an object or lacks the key. -/
def get : Json → String → Option Json
  | obj fields, key => getField fields key
  | _, _ => none

/-- `Value::as_str`. -/
def asStr : Json → Option String
  | str s => some s
  | _ => none

/-- Insertion into a canonical (sorted, duplicate-free) field list, replacing
an existing binding — `BTreeMap::insert` semantics. -/
def setField (key : String) (v : Json) : JsonFields → JsonFields
  | .nil => .cons key v .nil
  | .cons k w rest =>
    if key < k then .cons key v (.cons k w rest)
    else if key = k then .cons key v rest
    else .cons k w (setField key v rest)

/-- `as_object_mut` + `insert`: set a key on an object, leave other values
unchanged (mirrors the pull engine's id injection). -/
def setKey (key : String) (v : Json) : Json → Json
  | obj fields => obj (setField key v fields)
  | j => j

/-- Build a field list from an association list (used to write down object
literals; the literals below are listed in sorted key order, matching
serde_json's `BTreeMap` representation). -/
def fieldsOfList : List (String × Json) → JsonFields
  | [] => .nil
  | (k, v) :: rest => .cons k v (fieldsOfList rest)

end Json

/-! ## Chase state machine (`worker/state_machine.rs`) -/

/-- `ChaseState` — the five chasing states. -/
inductive ChaseState where
  | Pending
  | Overdue
  | ChasingLevel1
  | ChasingLevel2
  | Paid
deriving DecidableEq, Repr

/-- `ChaseAction` — action attached to a transition. -/
inductive ChaseAction where
  | SendPoliteReminder
  | SendFirmReminder
  | MarkAsPaid
  | NoAction
deriving DecidableEq, Repr

/-- `ChaseState`'s `Display` impl. -/
def ChaseState.toStr : ChaseState → String
  | .Pending => "pending"
  | .Overdue => "overdue"
  | .ChasingLevel1 => "chasing_level_1"
  | .ChasingLevel2 => "chasing_level_2"
  | .Paid => "paid"

namespace ChaseStateMachine

/-- `ChaseStateMachine::transition` (`state_machine.rs:107-137`), verbatim:
`days_overdue` is the Rust `i64`, modelled as `Int`. -/
def transition (current_state : ChaseState) (days_overdue : Int) :
    ChaseState × ChaseAction :=
  match current_state with
  | .Pending =>
    if days_overdue > 0 then (.Overdue, .SendPoliteReminder)
    else (.Pending, .NoAction)
  | .Overdue => (.ChasingLevel1, .SendPoliteReminder)
  | .ChasingLevel1 =>
    if days_overdue ≥ 7 then (.ChasingLevel2, .SendFirmReminder)
    else (.ChasingLevel1, .NoAction)
  | .ChasingLevel2 => (.ChasingLevel2, .NoAction)
  | .Paid => (.Paid, .NoAction)

/-- `Transition::initial_state` default. -/
def initial_state : ChaseState := .Pending

end ChaseStateMachine

/-- The transition table exactly as the specification's §4.6 table states it
(written from the spec's words, to be compared with the code's
`ChaseStateMachine.transition`). -/
def specStep (state : ChaseState) (days_overdue : Int) : ChaseState × ChaseAction :=
  match state with
  | .Pending =>
    if days_overdue > 0 then (.Overdue, .SendPoliteReminder) else (.Pending, .NoAction)
  | .Overdue => (.ChasingLevel1, .SendPoliteReminder)
  | .ChasingLevel1 =>
    if days_overdue ≥ 7 then (.ChasingLevel2, .SendFirmReminder)
    else (.ChasingLevel1, .NoAction)
  | .ChasingLevel2 => (.ChasingLevel2, .NoAction)
  | .Paid => (.Paid, .NoAction)

/-! ## Data model (`models/invoice.rs`, `models/sync_change.rs`) -/

/-- A row of the `invoices` table.  `last_modified` is nullable at the SQL
level (the conflict-detection query reads it as an option).  `status` is the
varchar value of `InvoiceStatus` ("draft" | "sent" | "paid" | "overdue" |
"cancelled"). -/
structure InvoiceRow where
  id : Nat
  user_id : Nat
  invoice_number : String
  client_name : String
  client_email : Option String
  amount : Int
  currency : String
  status : String
  due_date : Option Int
  issue_date : Int
  description : Option String
  line_items : Option Json
  metadata : Option Json
  last_modified : Option Int
  version_vector : Option Json
  is_deleted : Bool
  created_at : Int
  updated_at : Int
deriving DecidableEq, Repr

/-- `SyncOperation` (`models/sync_change.rs`). -/
inductive SyncOperation where
  | Insert
  | Update
  | Delete
deriving DecidableEq, Repr

/-- A row of the `sync_changes` journal (`models/sync_change.rs`). -/
structure SyncChangeRow where
  user_id : Nat
  table_name : String
  record_id : Nat
  operation : SyncOperation
  old_data : Option Json
  new_data : Option Json
  device_id : String
  change_timestamp : Int
  vector_clock : Option Json
  is_applied : Bool
  sequence_number : Nat
deriving DecidableEq, Repr

/-- The database state the sync engine manipulates: the `invoices` table, the
`sync_changes` journal, and the store-allocated sequence counter. -/
structure DbState where
  invoices : List InvoiceRow
  sync_changes : List SyncChangeRow
  next_seq : Nat
deriving DecidableEq, Repr

/-! ## Sync wire types (`sync/types.rs`) -/

/-- `PushChange`. -/
structure PushChange where
  table : String
  id : Nat
  data : Option Json
  deleted : Bool
  device_id : Option String
  version_vector : Option Json
deriving DecidableEq, Repr

/-- `PushRequest`. -/
structure PushRequest where
  changes : List PushChange
  device_id : Option String
deriving DecidableEq, Repr

/-- `PushResponse`. -/
structure PushResponse where
  applied : Nat
  conflicts : Nat
  conflicted_ids : List Nat
  timestamp : Int
deriving DecidableEq, Repr

/-- `ConflictStrategy`. -/
inductive ConflictStrategy where
  | ServerWins
  | ClientWins
  | LastWriteWins
deriving DecidableEq, Repr

/-! ## Parsing and serialisation stand-ins

The code parses wire values with `DateTime::parse_from_rfc3339`,
`NaiveDate::parse_from_str("%Y-%m-%d")` and `Decimal::from_str_exact`, and
serialises the corresponding values with their `to_string`/serde formats.
The model renders all three value domains as `Int` and uses the
`toString`/`String.toInt?` pair; what the verified properties rely on is
only which fields are present and that serialising then parsing restores the
value, which these stand-ins share with the originals. -/

/-- Decimal-digit accumulator (the loop of `String.toNat?`, written with
structural recursion so that concrete instances evaluate inside the kernel). -/
def digitsToNat (acc : Nat) : List Char → Option Nat
  | [] => some acc
  | c :: cs => if c.isDigit then digitsToNat (acc * 10 + (c.toNat - 48)) cs else none

/-- Integer numeral parser over the string's characters (optional leading
minus, at least one digit). -/
def parseIntStr (s : String) : Option Int :=
  match s.data with
  | [] => none
  | '-' :: rest =>
    match rest with
    | [] => none
    | l => (digitsToNat 0 l).map (fun n => -(n : Int))
  | l => (digitsToNat 0 l).map (fun n => (n : Int))

/-- Stand-in for `DateTime::parse_from_rfc3339` (timestamps are `Int`s). -/
def parseRfc3339 : String → Option Int := parseIntStr

/-- Stand-in for `NaiveDate::parse_from_str(s, "%Y-%m-%d")`. -/
def parseDate : String → Option Int := parseIntStr

/-- Stand-in for `rust_decimal::Decimal::from_str_exact`. -/
def parseDecimalStr : String → Option Int := parseIntStr

/-- The amount extraction used by `apply_insert`/`apply_update`:
`as_str` → `from_str_exact`, else `as_f64` → `Decimal::try_from`. -/
def parseAmount (v : Json) : Option Int :=
  match v with
  | .str s => parseDecimalStr s
  | .num n => some n
  | _ => none

/-- serde serialisation of an `Option<String>` column into `json!`. -/
def jsonOfOptStr : Option String → Json
  | none => .null
  | some s => .str s

/-- serde serialisation of an optional timestamp/date column into `json!`. -/
def jsonOfOptNum : Option Int → Json
  | none => .null
  | some n => .str (toString n)

/-- serde serialisation of an `Option<Value>` column into `json!`. -/
def jsonOfOptJson : Option Json → Json
  | none => .null
  | some j => j

/-! ## Conflict detection and resolution (`sync/conflict.rs`) -/

/-- The row lookup shared by `has_conflict` and `record_exists`:
`WHERE id = $1 AND user_id = $2 AND is_deleted = false`. -/
def fetchActiveInvoice (invoices : List InvoiceRow) (record_id user_id : Nat) :
    Option InvoiceRow :=
  invoices.find? fun r =>
    decide (r.id = record_id ∧ r.user_id = user_id ∧ r.is_deleted = false)

/-- `has_conflict` (`conflict.rs:28-83`): true iff the (non-deleted) record
exists and either the server's `last_modified` is newer than the client's, or
both version vectors are present and unequal.  Unknown tables: warn, no
conflict. -/
def has_conflict (invoices : List InvoiceRow) (user_id : Nat) (table_name : String)
    (record_id : Nat) (client_version_vector : Option Json)
    (client_last_modified : Option Int) : Bool :=
  match table_name with
  | "invoices" =>
    match fetchActiveInvoice invoices record_id user_id with
    | some row =>
      let server_newer : Bool :=
        match row.last_modified, client_last_modified with
        | some server_last_modified, some client_modified =>
          decide (server_last_modified > client_modified)
        | _, _ => false
      if server_newer then true
      else
        match client_version_vector, row.version_vector with
        | some client_vv, some server_vv => decide (client_vv ≠ server_vv)
        | _, _ => false
    | none => false
  | _ => false

/-- The `json!` snapshot of an invoice row built by the ServerWins branch of
`resolve_conflict` (`conflict.rs:135-154`); serde_json orders object keys. -/
def invoiceSnapshotJson (inv : InvoiceRow) : Json :=
  .obj (Json.fieldsOfList [
    ("amount", .str (toString inv.amount)),
    ("client_email", jsonOfOptStr inv.client_email),
    ("client_name", .str inv.client_name),
    ("created_at", .str (toString inv.created_at)),
    ("currency", .str inv.currency),
    ("description", jsonOfOptStr inv.description),
    ("due_date", jsonOfOptNum inv.due_date),
    ("id", .str (toString inv.id)),
    ("invoice_number", .str inv.invoice_number),
    ("is_deleted", .bool inv.is_deleted),
    ("issue_date", .str (toString inv.issue_date)),
    ("last_modified", jsonOfOptNum inv.last_modified),
    ("line_items", jsonOfOptJson inv.line_items),
    ("metadata", jsonOfOptJson inv.metadata),
    ("status", .str inv.status),
    ("updated_at", .str (toString inv.updated_at)),
    ("user_id", .str (toString inv.user_id)),
    ("version_vector", jsonOfOptJson inv.version_vector)])

/-- `resolve_conflict` (`conflict.rs:101-177`).  ServerWins fetches the
record with `WHERE id AND user_id` (no `is_deleted` filter) and returns its
snapshot, falling back to the client data when absent; ClientWins returns
the client data; LastWriteWins returns the client data (the code comments
"for now, use client version ... in a full implementation, we'd compare
last_modified timestamps").  The model's queries cannot fail, so the
function is total. -/
def resolve_conflict (invoices : List InvoiceRow) (user_id : Nat)
    (table_name : String) (record_id : Nat) (client_data : Json)
    (strategy : ConflictStrategy) : Json :=
  match strategy with
  | .ServerWins =>
    match table_name with
    | "invoices" =>
      match invoices.find? (fun r => decide (r.id = record_id ∧ r.user_id = user_id)) with
      | some inv => invoiceSnapshotJson inv
      | none => client_data
    | _ => client_data
  | .ClientWins => client_data
  | .LastWriteWins => client_data

/-! ## Push engine (`sync/push.rs`) -/

/-- `record_exists` (`push.rs:223-245`): for "invoices",
`SELECT 1 ... WHERE id AND user_id AND is_deleted = false`; unknown tables
warn and report `false`. -/
def record_exists (invoices : List InvoiceRow) (table_name : String)
    (record_id user_id : Nat) : Bool :=
  match table_name with
  | "invoices" => (fetchActiveInvoice invoices record_id user_id).isSome
  | _ => false

/-- `apply_insert` (`push.rs:248-322`).  Field validation errors surface
before the SQL `INSERT`; the `id` column is the primary key, so inserting an
id already present in the table (soft-deleted rows included) raises a
unique-violation error and writes nothing. -/
def apply_insert (invoices : List InvoiceRow) (now today : Int) (user_id : Nat)
    (change : PushChange) : Except String (List InvoiceRow) :=
  match change.data with
  | none => .error "INSERT operation requires data"
  | some data =>
    match change.table with
    | "invoices" =>
      match (data.get "invoice_number").bind Json.asStr with
      | none => .error "Missing invoice_number"
      | some invoice_number =>
        match (data.get "client_name").bind Json.asStr with
        | none => .error "Missing client_name"
        | some client_name =>
          match (data.get "amount").bind parseAmount with
          | none => .error "Invalid amount"
          | some amount =>
            if invoices.any (fun r => decide (r.id = change.id)) then
              .error "duplicate key value violates unique constraint"
            else
              .ok (invoices ++ [{
                id := change.id
                user_id := user_id
                invoice_number := invoice_number
                client_name := client_name
                client_email := (data.get "client_email").bind Json.asStr
                amount := amount
                currency := ((data.get "currency").bind Json.asStr).getD "USD"
                status := ((data.get "status").bind Json.asStr).getD "draft"
                due_date := ((data.get "due_date").bind Json.asStr).bind parseDate
                issue_date :=
                  (((data.get "issue_date").bind Json.asStr).bind parseDate).getD today
                description := (data.get "description").bind Json.asStr
                line_items := data.get "line_items"
                metadata := data.get "metadata"
                last_modified := some now
                version_vector := change.version_vector
                is_deleted := false
                created_at := now
                updated_at := now }])
    | _ => .error ("INSERT not implemented for table: " ++ change.table)

/-- The row mutation performed by `apply_update`'s SQL (`push.rs:346-380`):
`COALESCE(bind, column)` for invoice_number, client_name, amount, currency,
status and issue_date; direct assignment (absent payload field ⇒ NULL) for
client_email, due_date, description, line_items, metadata and version_vector;
`last_modified`/`updated_at` set to `NOW()`. -/
def updateInvoiceRow (now : Int) (data : Json) (r : InvoiceRow) : InvoiceRow :=
  { r with
    invoice_number := ((data.get "invoice_number").bind Json.asStr).getD r.invoice_number
    client_name := ((data.get "client_name").bind Json.asStr).getD r.client_name
    client_email := (data.get "client_email").bind Json.asStr
    amount := ((data.get "amount").bind parseAmount).getD r.amount
    currency := ((data.get "currency").bind Json.asStr).getD r.currency
    status := ((data.get "status").bind Json.asStr).getD r.status
    due_date := ((data.get "due_date").bind Json.asStr).bind parseDate
    issue_date := ((((data.get "issue_date").bind Json.asStr).bind parseDate)).getD r.issue_date
    description := (data.get "description").bind Json.asStr
    line_items := data.get "line_items"
    metadata := data.get "metadata"
    last_modified := some now
    version_vector := data.get "version_vector"
    updated_at := now }

/-- `apply_update` (`push.rs:325-390`): update rows matching
`WHERE id AND user_id AND is_deleted = false` (an UPDATE touching zero rows
succeeds); unknown tables error. -/
def apply_update (invoices : List InvoiceRow) (now : Int) (user_id record_id : Nat)
    (table_name : String) (data : Json) : Except String (List InvoiceRow) :=
  match table_name with
  | "invoices" =>
    .ok (invoices.map fun r =>
      if r.id = record_id ∧ r.user_id = user_id ∧ r.is_deleted = false
      then updateInvoiceRow now data r else r)
  | _ => .error ("UPDATE not implemented for table: " ++ table_name)

/-- `apply_delete` (`push.rs:393-420`): soft delete, no `is_deleted` filter
in the `WHERE` clause. -/
def apply_delete (invoices : List InvoiceRow) (now : Int) (user_id record_id : Nat)
    (table_name : String) : Except String (List InvoiceRow) :=
  match table_name with
  | "invoices" =>
    .ok (invoices.map fun r =>
      if r.id = record_id ∧ r.user_id = user_id
      then { r with is_deleted := true, last_modified := some now, updated_at := now }
      else r)
  | _ => .error ("DELETE not implemented for table: " ++ table_name)

/-- `record_sync_change` (`push.rs:423-460`): append a journal row with
`is_applied = true`.  The `INSERT` lists no `old_data` column, so `old_data`
is NULL; `change_timestamp`/`sequence_number` come from store defaults
(modelled by `now` and the sequence counter). -/
def record_sync_change (db : DbState) (now : Int) (user_id : Nat)
    (table_name : String) (record_id : Nat) (operation : SyncOperation)
    (new_data : Option Json) (device_id : String)
    (version_vector : Option Json) : DbState :=
  { db with
    sync_changes := db.sync_changes ++ [{
      user_id := user_id
      table_name := table_name
      record_id := record_id
      operation := operation
      old_data := none
      new_data := new_data
      device_id := device_id
      change_timestamp := now
      vector_clock := version_vector
      is_applied := true
      sequence_number := db.next_seq }]
    next_seq := db.next_seq + 1 }

/-- `apply_change` (`push.rs:119-220`): classify the operation, extract the
client's `last_modified`/`version_vector` from `data`, detect conflicts for
UPDATEs, apply the write (resolving first when conflicted), journal it, and
report whether a conflict occurred. -/
def apply_change (db : DbState) (now today : Int) (user_id : Nat)
    (change : PushChange) (device_id : String) (strategy : ConflictStrategy) :
    Except String (DbState × Bool) :=
  let operationE : Except String SyncOperation :=
    if change.deleted then .ok .Delete
    else if change.data.isSome then
      if record_exists db.invoices change.table change.id user_id
      then .ok .Update else .ok .Insert
    else .error "Change has no data and is not a delete"
  match operationE with
  | .error e => .error e
  | .ok operation =>
    let client_last_modified : Option Int :=
      match change.data with
      | some data => ((data.get "last_modified").bind Json.asStr).bind parseRfc3339
      | none => none
    let client_version_vector : Option Json :=
      match change.data with
      | some data => data.get "version_vector"
      | none => none
    let has_conf : Bool :=
      match operation with
      | .Update =>
        has_conflict db.invoices user_id change.table change.id
          client_version_vector client_last_modified
      | _ => false
    let appliedE : Except String (List InvoiceRow) :=
      match operation, change.data with
      | .Insert, _ => apply_insert db.invoices now today user_id change
      | .Update, some data =>
        if has_conf then
          apply_update db.invoices now user_id change.id change.table
            (resolve_conflict db.invoices user_id change.table change.id data strategy)
        else
          apply_update db.invoices now user_id change.id change.table data
      | .Update, none =>
        -- unreachable: the classification only yields UPDATE when data is present
        .error "UPDATE without data"
      | .Delete, _ => apply_delete db.invoices now user_id change.id change.table
    match appliedE with
    | .error e => .error e
    | .ok invoices' =>
      .ok (record_sync_change { db with invoices := invoices' } now user_id
             change.table change.id operation change.data device_id
             change.version_vector,
           has_conf)

/-- The loop accumulator of `push_changes`. -/
structure PushState where
  db : DbState
  applied : Nat
  conflicts : Nat
  conflicted_ids : List Nat
deriving DecidableEq, Repr

/-- One iteration of the `push_changes` loop (`push.rs:54-84`): conflicts
bump the conflict counter and record the id, successes bump `applied`, and a
per-change error is logged and skipped ("continue with other changes"). -/
def pushStep (now today : Int) (user_id : Nat) (device_id : String)
    (s : PushState) (change : PushChange) : PushState :=
  match apply_change s.db now today user_id change device_id .ServerWins with
  | .ok (db', was_conflict) =>
    if was_conflict then
      { s with db := db', conflicts := s.conflicts + 1,
               conflicted_ids := s.conflicted_ids ++ [change.id] }
    else
      { s with db := db', applied := s.applied + 1 }
  | .error _ => s

/-- `push_changes` (`push.rs:35-100`): process the changes in input order
with the default ServerWins strategy inside one transaction, commit, and
answer with the counters.  The returned `DbState` is the committed store. -/
def push_changes (db : DbState) (now today : Int) (user_id : Nat)
    (request : PushRequest) : DbState × PushResponse :=
  let device_id := request.device_id.getD "unknown"
  let final := request.changes.foldl (pushStep now today user_id device_id)
    { db := db, applied := 0, conflicts := 0, conflicted_ids := [] }
  (final.db,
   { applied := final.applied, conflicts := final.conflicts,
     conflicted_ids := final.conflicted_ids, timestamp := now })

/-! ## Pull engine (`sync/pull.rs`) -/

/-- Operation bucket names used by the pull response
(INSERT → created, UPDATE → updated, DELETE → deleted). -/
def bucketOf : SyncOperation → String
  | .Insert => "created"
  | .Update => "updated"
  | .Delete => "deleted"

/-- The snapshot choice of `get_changes` (`pull.rs:98-106`): `new_data` for
INSERT/UPDATE, `old_data` for DELETE. -/
def snapshotOf (c : SyncChangeRow) : Option Json :=
  match c.operation with
  | .Insert => c.new_data
  | .Update => c.new_data
  | .Delete => c.old_data

/-- The lexicographic `ORDER BY change_timestamp ASC, sequence_number ASC`. -/
def changeLe (a b : SyncChangeRow) : Bool :=
  a.change_timestamp < b.change_timestamp ||
    (a.change_timestamp == b.change_timestamp &&
      a.sequence_number ≤ b.sequence_number)

/-- Insertion sort by `changeLe` (a total order: sequence numbers are
store-allocated and unique per user). -/
def insertSorted (c : SyncChangeRow) : List SyncChangeRow → List SyncChangeRow
  | [] => [c]
  | d :: rest => if changeLe c d then c :: d :: rest else d :: insertSorted c rest

/-- Sort a journal fragment by `(change_timestamp, sequence_number)`. -/
def sortChanges : List SyncChangeRow → List SyncChangeRow
  | [] => []
  | c :: rest => insertSorted c (sortChanges rest)

/-- The `sync_changes` query of `get_changes` (`pull.rs:43-81`): the user's
applied changes, restricted to `change_timestamp > last_pulled_at` when a
timestamp is supplied, ordered by `(change_timestamp, sequence_number)`. -/
def changesQuery (db : DbState) (user_id : Nat) (last_pulled_at : Option Int) :
    List SyncChangeRow :=
  sortChanges (db.sync_changes.filter fun c =>
    c.user_id == user_id && c.is_applied &&
      (match last_pulled_at with
       | some t => decide (c.change_timestamp > t)
       | none => true))

/-- The contents of `changes[table][bucket]` in the pull response
(`pull.rs:89-122`): for each queried change record in order, take the
snapshot (skipping records whose snapshot is NULL), and inject the record's
`id` (UUIDs serialise as strings) when the snapshot is an object. -/
def get_changes_bucket (db : DbState) (user_id : Nat) (last_pulled_at : Option Int)
    (table bucket : String) : List Json :=
  (changesQuery db user_id last_pulled_at).filterMap fun c =>
    if c.table_name = table ∧ bucketOf c.operation = bucket then
      (snapshotOf c).map fun data => data.setKey "id" (.str (toString c.record_id))
    else none

/-! ## Email services (`worker/services.rs`) -/

/-- The polite body template of `generate_email`. -/
def politeBody (context : String) : String :=
  "Dear Client,\n\nThis is a friendly reminder regarding " ++ context ++
  ". We hope this message finds you well.\n\n" ++
  "We wanted to gently remind you that payment is now due. " ++
  "We appreciate your prompt attention to this matter.\n\n" ++
  "Thank you for your business!\n\nBest regards,\nGigPilot"

/-- The firm body template of `generate_email`. -/
def firmBody (context : String) : String :=
  "Dear Client,\n\nThis is an urgent reminder regarding " ++ context ++
  ". Payment is now overdue and requires immediate attention.\n\n" ++
  "We have previously sent reminders, and we need to receive " ++
  "payment as soon as possible. Please arrange payment " ++
  "immediately to avoid further action.\n\n" ++
  "We look forward to resolving this matter promptly.\n\n" ++
  "Best regards,\nGigPilot"

/-- `generate_email` (`services.rs:22-61`): the mock generator never fails;
unknown tones fall back to polite. -/
def generate_email (tone : String) (context : String) : String × String :=
  match tone with
  | "polite" => ("Friendly Reminder: Payment Due", politeBody context)
  | "firm" => ("Urgent: Payment Required", firmBody context)
  | _ => ("Friendly Reminder: Payment Due", politeBody context)

/-- An email handed to the mock sink `send_email` (which always succeeds).
`recipient` models the sink's `to` argument (`to` is reserved in Lean). -/
structure SentEmail where
  recipient : String
  subject : String
  body : String
deriving DecidableEq, Repr

/-! ## Chase executor (`worker/executor.rs`) -/

/-- `ChaseExecutor::get_chase_state` (`executor.rs:105-135`): read a valid
`metadata.chase_state` if present; otherwise Paid when `status = paid`,
Overdue when `due_date < today`, else Pending. -/
def get_chase_state (inv : InvoiceRow) (today : Int) : ChaseState :=
  let fromMeta : Option ChaseState :=
    match inv.metadata with
    | some metadata =>
      match (metadata.get "chase_state").bind Json.asStr with
      | some "pending" => some .Pending
      | some "overdue" => some .Overdue
      | some "chasing_level_1" => some .ChasingLevel1
      | some "chasing_level_2" => some .ChasingLevel2
      | some "paid" => some .Paid
      | _ => none
    | none => none
  match fromMeta with
  | some s => s
  | none =>
    if inv.status = "paid" then .Paid
    else
      match inv.due_date with
      | some due_date => if due_date < today then .Overdue else .Pending
      | none => .Pending

/-- `ChaseExecutor::calculate_days_overdue` (`executor.rs:146-159`). -/
def calculate_days_overdue (inv : InvoiceRow) (today : Int) : Int :=
  match inv.due_date with
  | some due_date => if due_date < today then today - due_date else 0
  | none => 0

/-- The `Debug` rendering of the optional due date in the context string. -/
def formatOptDate : Option Int → String
  | none => "None"
  | some d => "Some(" ++ toString d ++ ")"

/-- The context string built by `send_chase_email` (`executor.rs:184-190`),
"Invoice <n> for <currency> <amount> (Due: <due>)"; the `:.2` decimal
format is rendered by `toString` on the model's integer amounts. -/
def chaseContext (inv : InvoiceRow) : String :=
  "Invoice " ++ inv.invoice_number ++ " for " ++ inv.currency ++ " " ++
    toString inv.amount ++ " (Due: " ++ formatOptDate inv.due_date ++ ")"

/-- `ChaseExecutor::update_chase_state` (`executor.rs:219-243`):
`metadata := COALESCE(metadata, '{}') || {chase_state: <state>}` plus
`updated_at`/`last_modified := NOW()`, on the row with the given id.
(The model applies the jsonb merge only to object metadata, the shape the
executor itself maintains.) -/
def update_chase_state (invoices : List InvoiceRow) (now : Int)
    (invoice_id : Nat) (state : ChaseState) : List InvoiceRow :=
  invoices.map fun r =>
    if r.id = invoice_id then
      { r with
        metadata := some ((r.metadata.getD (.obj .nil)).setKey "chase_state"
          (.str state.toStr))
        updated_at := now
        last_modified := some now }
    else r

/-- `ChaseExecutor::send_chase_email` (`executor.rs:172-207`): error when
`client_email` is NULL ("No client email ..."), otherwise generate the email
with the mock generator, deliver it via the mock sink (both always succeed)
and persist the new state.  Returns the delivered emails and the updated
table. -/
def send_chase_email (invoices : List InvoiceRow) (now : Int) (inv : InvoiceRow)
    (tone : String) (new_state : ChaseState) :
    Except String (List SentEmail × List InvoiceRow) :=
  match inv.client_email with
  | none => .error ("No client email for invoice " ++ inv.invoice_number)
  | some client_email =>
    let generated := generate_email tone (chaseContext inv)
    .ok ([{ recipient := client_email, subject := generated.1, body := generated.2 }],
         update_chase_state invoices now inv.id new_state)

/-- `ChaseExecutor::process_invoice` (`executor.rs:49-94`): read the state,
compute days overdue, step the state machine, execute the action.  NoAction
persists the state only when it changed. -/
def process_invoice (invoices : List InvoiceRow) (now today : Int)
    (inv : InvoiceRow) : Except String (List SentEmail × List InvoiceRow) :=
  let current_state := get_chase_state inv today
  let days_overdue := calculate_days_overdue inv today
  let stepped := ChaseStateMachine.transition current_state days_overdue
  match stepped.2 with
  | .SendPoliteReminder => send_chase_email invoices now inv "polite" stepped.1
  | .SendFirmReminder => send_chase_email invoices now inv "firm" stepped.1
  | .MarkAsPaid => .ok ([], update_chase_state invoices now inv.id stepped.1)
  | .NoAction =>
    if current_state = stepped.1 then .ok ([], invoices)
    else .ok ([], update_chase_state invoices now inv.id stepped.1)

/-! ## Claim theorems -/

/-- C1: The chase state machine transition function is deterministic and
total over (state, days_overdue) — it is a Lean function on
`ChaseState × Int` — and agrees with the spec's §4.6 table (`specStep`) at
every input: `(Pending, d) ↦ (Overdue, SendPoliteReminder)` iff `d > 0`,
else `(Pending, NoAction)`; `(Overdue, d) ↦ (ChasingLevel1,
SendPoliteReminder)`; `(ChasingLevel1, d) ↦ (ChasingLevel2,
SendFirmReminder)` iff `d ≥ 7`, else `(ChasingLevel1, NoAction)`;
`(ChasingLevel2, d) ↦ (ChasingLevel2, NoAction)`; and Paid is a fixed
point, `(Paid, d) ↦ (Paid, NoAction)`. -/
theorem chase_transition_matches_spec_table :
    ∀ (s : ChaseState) (d : Int), ChaseStateMachine.transition s d = specStep s d := by
  intro s d
  cases s <;> rfl

/-- C2: During a push UPDATE (so over the invoices table), conflict
detection reports a conflict iff the record exists on the server
(non-deleted, owned by the user) and either (a) the server's
`last_modified` is strictly greater than the client's `last_modified`
(both being present), or (b) both version vectors are present and differ;
in every other case it reports no conflict. -/
theorem has_conflict_iff :
    ∀ (invoices : List InvoiceRow) (user_id record_id : Nat)
      (client_vv : Option Json) (client_lm : Option Int),
    has_conflict invoices user_id "invoices" record_id client_vv client_lm = true ↔
      ∃ row, fetchActiveInvoice invoices record_id user_id = some row ∧
        ((∃ server_lm lm, row.last_modified = some server_lm ∧
            client_lm = some lm ∧ lm < server_lm) ∨
         (∃ v w, client_vv = some v ∧ row.version_vector = some w ∧ v ≠ w)) := by
  intro invoices user_id record_id client_vv client_lm
  unfold has_conflict
  cases hrow : fetchActiveInvoice invoices record_id user_id with
  | none => simp
  | some row =>
    cases hlm : row.last_modified <;> cases hclm : client_lm <;>
      cases hcv : client_vv <;> cases hvv : row.version_vector <;>
      simp [hlm, hclm, hcv, hvv]

/-- Helper: `record_exists` is false on unsupported tables. -/
theorem record_exists_not_invoices {invoices : List InvoiceRow} {t : String}
    {rid uid : Nat} (h : t ≠ "invoices") :
    record_exists invoices t rid uid = false := by
  unfold record_exists
  split <;> simp_all

/-- Helper: `apply_insert` errors on unsupported tables. -/
theorem apply_insert_not_invoices {invoices : List InvoiceRow} {now today : Int}
    {uid : Nat} {c : PushChange} {d : Json} (h : c.table ≠ "invoices")
    (hd : c.data = some d) :
    apply_insert invoices now today uid c =
      .error ("INSERT not implemented for table: " ++ c.table) := by
  unfold apply_insert
  rw [hd]
  split <;> simp_all

/-- Helper: `apply_delete` errors on unsupported tables. -/
theorem apply_delete_not_invoices {invoices : List InvoiceRow} {now : Int}
    {uid rid : Nat} {t : String} (h : t ≠ "invoices") :
    apply_delete invoices now uid rid t =
      .error ("DELETE not implemented for table: " ++ t) := by
  unfold apply_delete
  split <;> simp_all

/-- Helper: a change on which `apply_change` errors leaves the push loop
state untouched ("log and continue"). -/
theorem pushStep_error_eq {now today : Int} {user_id : Nat} {device_id : String}
    {s : PushState} {c : PushChange} {e : String}
    (h : apply_change s.db now today user_id c device_id .ServerWins = .error e) :
    pushStep now today user_id device_id s c = s := by
  simp [pushStep, h]

/-- C8: For every push batch, a per-change application error — including a
malformed change lacking both data and the delete flag, and a change
referencing an unsupported table — does not abort the remaining changes:
removing the erroring change from the batch yields the same committed store
and the same response (`push_changes` is total, so the batch still commits),
hence the failed change is counted neither in `applied` nor in `conflicts`
and contributes no conflicted id. -/
theorem push_skips_failed_changes :
    ∀ (db db2 : DbState) (now today : Int) (user_id : Nat) (device_id : String)
      (strategy : ConflictStrategy) (dev : Option String)
      (pre post : List PushChange) (c : PushChange),
    (c.data = none → c.deleted = false →
      ∃ e, apply_change db2 now today user_id c device_id strategy = .error e)
    ∧ (c.table ≠ "invoices" →
      ∃ e, apply_change db2 now today user_id c device_id strategy = .error e)
    ∧ ((∃ e, apply_change
          (List.foldl (pushStep now today user_id (dev.getD "unknown"))
            ⟨db, 0, 0, []⟩ pre).db now today user_id c (dev.getD "unknown")
          .ServerWins = .error e) →
        push_changes db now today user_id ⟨pre ++ c :: post, dev⟩ =
          push_changes db now today user_id ⟨pre ++ post, dev⟩) := by
  intro db db2 now today user_id device_id strategy dev pre post c
  refine ⟨?_, ?_, ?_⟩
  · intro hdata hdel
    exact ⟨"Change has no data and is not a delete", by
      simp [apply_change, hdata, hdel]⟩
  · intro htab
    by_cases hdel : c.deleted
    · refine ⟨"DELETE not implemented for table: " ++ c.table, ?_⟩
      simp [apply_change, hdel, apply_delete_not_invoices htab]
    · cases hdata : c.data with
      | none =>
        exact ⟨"Change has no data and is not a delete", by
          simp [apply_change, hdata, hdel]⟩
      | some d =>
        refine ⟨"INSERT not implemented for table: " ++ c.table, ?_⟩
        simp [apply_change, hdel, hdata, record_exists_not_invoices htab,
          apply_insert_not_invoices htab hdata]
  · rintro ⟨e, he⟩
    unfold push_changes
    simp only [List.foldl_append, List.foldl_cons]
    rw [pushStep_error_eq he]

/-- C8 witness: a batch consisting of one malformed change (no data, not a
delete) behaves exactly like the empty batch. -/
theorem push_skips_failed_changes_witness :
    push_changes ⟨[], [], 0⟩ 1 2 7 ⟨[⟨"invoices", 5, none, false, none, none⟩], none⟩ =
      push_changes ⟨[], [], 0⟩ 1 2 7 ⟨[], none⟩ :=
  (push_skips_failed_changes ⟨[], [], 0⟩ ⟨[], [], 0⟩ 1 2 7 "unknown" .ServerWins
    none [] [] ⟨"invoices", 5, none, false, none, none⟩).2.2
    ⟨"Change has no data and is not a delete", by rfl⟩

/-- A concrete invoice row used by the concrete instances below. -/
def mkRow (id uid : Nat) : InvoiceRow :=
  { id := id, user_id := uid, invoice_number := "INV-1", client_name := "Alice",
    client_email := some "a@example.com", amount := 100, currency := "USD",
    status := "draft", due_date := some 10, issue_date := 5, description := none,
    line_items := none, metadata := none, last_modified := some 120,
    version_vector := none, is_deleted := false, created_at := 50, updated_at := 50 }

/-- C10: A push change with data whose target invoice exists only as a
soft-deleted row is classified as an INSERT, not an UPDATE — `record_exists`
excludes `is_deleted` rows — and the insert then fails on the already-present
primary key, so the change counts neither as applied nor as a conflict and
the store (the soft-deleted row included) is left exactly as it was. -/
theorem push_insert_on_soft_deleted_id_fails :
    ∀ (db : DbState) (now today : Int) (user_id : Nat) (dev : Option String)
      (c : PushChange),
    c.table = "invoices" →
    c.deleted = false →
    c.data.isSome = true →
    (∀ r ∈ db.invoices, r.id = c.id → r.is_deleted = true) →
    (∃ r ∈ db.invoices, r.id = c.id) →
    record_exists db.invoices c.table c.id user_id = false
    ∧ (∃ e, apply_change db now today user_id c (dev.getD "unknown") .ServerWins
        = .error e)
    ∧ push_changes db now today user_id ⟨[c], dev⟩ =
        (db, { applied := 0, conflicts := 0, conflicted_ids := [],
               timestamp := now }) := by
  intro db now today user_id dev c htab hdel hdata hall hex
  obtain ⟨d, hd⟩ := Option.isSome_iff_exists.mp hdata
  have hdup : db.invoices.any (fun r => decide (r.id = c.id)) = true := by
    obtain ⟨r, hr, hid⟩ := hex
    exact List.any_eq_true.mpr ⟨r, hr, by simp [hid]⟩
  have hfind : fetchActiveInvoice db.invoices c.id user_id = none := by
    unfold fetchActiveInvoice
    rw [List.find?_eq_none]
    intro r hr
    simp only [decide_eq_true_eq, not_and]
    intro hid _
    simp [hall r hr hid]
  have hrec : record_exists db.invoices c.table c.id user_id = false := by
    rw [htab]
    show (fetchActiveInvoice db.invoices c.id user_id).isSome = false
    rw [hfind]
    rfl
  have hins : ∃ e, apply_insert db.invoices now today user_id c = .error e := by
    cases h1 : (d.get "invoice_number").bind Json.asStr with
    | none =>
      exact ⟨"Missing invoice_number", by simp [apply_insert, hd, htab, h1]⟩
    | some v1 =>
      cases h2 : (d.get "client_name").bind Json.asStr with
      | none =>
        exact ⟨"Missing client_name", by simp [apply_insert, hd, htab, h1, h2]⟩
      | some v2 =>
        cases h3 : (d.get "amount").bind parseAmount with
        | none =>
          exact ⟨"Invalid amount", by simp [apply_insert, hd, htab, h1, h2, h3]⟩
        | some v3 =>
          exact ⟨"duplicate key value violates unique constraint", by
            simp [apply_insert, hd, htab, h1, h2, h3, hdup]⟩
  have happ : ∃ e, apply_change db now today user_id c (dev.getD "unknown")
      .ServerWins = .error e := by
    obtain ⟨e, he⟩ := hins
    refine ⟨e, ?_⟩
    simp [apply_change, hdel, hd, hrec, he]
  refine ⟨hrec, happ, ?_⟩
  obtain ⟨e, he⟩ := happ
  unfold push_changes
  simp only [List.foldl_cons, List.foldl_nil]
  rw [pushStep_error_eq he]

/-- C10 witness: a store holding only a soft-deleted invoice with id 1,
pushed an update-shaped change for id 1: the change is treated as an insert,
fails, and the store is unchanged. -/
theorem push_insert_on_soft_deleted_id_fails_witness :
    record_exists [{ mkRow 1 7 with is_deleted := true }] "invoices" 1 7 = false
    ∧ (∃ e, apply_change ⟨[{ mkRow 1 7 with is_deleted := true }], [], 0⟩ 200 20 7
        ⟨"invoices", 1, some (.obj .nil), false, none, none⟩ "unknown" .ServerWins
        = .error e)
    ∧ push_changes ⟨[{ mkRow 1 7 with is_deleted := true }], [], 0⟩ 200 20 7
        ⟨[⟨"invoices", 1, some (.obj .nil), false, none, none⟩], none⟩ =
        (⟨[{ mkRow 1 7 with is_deleted := true }], [], 0⟩,
         { applied := 0, conflicts := 0, conflicted_ids := [], timestamp := 200 }) :=
  push_insert_on_soft_deleted_id_fails
    ⟨[{ mkRow 1 7 with is_deleted := true }], [], 0⟩ 200 20 7 none
    ⟨"invoices", 1, some (.obj .nil), false, none, none⟩
    rfl rfl rfl (by decide) ⟨{ mkRow 1 7 with is_deleted := true }, by decide⟩

/-- Helper: applying the ServerWins snapshot of a row back to that row via
the update SQL preserves every column value except that `last_modified` and
`updated_at` are refreshed to `NOW()` and the nullable JSON columns change
representation from SQL NULL to JSON null.  The numeral round-trip facts are
hypotheses, discharged by evaluation at concrete rows. -/
theorem snapshot_update_roundtrip (now : Int) (r : InvoiceRow)
    (h1 : parseDecimalStr (toString r.amount) = some r.amount)
    (h2 : parseDate (toString r.issue_date) = some r.issue_date)
    (h3 : ∀ dd, r.due_date = some dd → parseDate (toString dd) = some dd) :
    updateInvoiceRow now (invoiceSnapshotJson r) r =
      { r with last_modified := some now, updated_at := now,
               line_items := some (jsonOfOptJson r.line_items),
               metadata := some (jsonOfOptJson r.metadata),
               version_vector := some (jsonOfOptJson r.version_vector) } := by
  cases hdd : r.due_date with
  | none =>
    cases hce : r.client_email <;> cases hde : r.description <;>
      simp_all [updateInvoiceRow, invoiceSnapshotJson, Json.get, Json.getField,
        Json.fieldsOfList, jsonOfOptStr, jsonOfOptNum, jsonOfOptJson, Json.asStr,
        parseAmount]
  | some dd =>
    have h3s := h3 dd hdd
    cases hce : r.client_email <;> cases hde : r.description <;>
      simp_all [updateInvoiceRow, invoiceSnapshotJson, Json.get, Json.getField,
        Json.fieldsOfList, jsonOfOptStr, jsonOfOptNum, jsonOfOptJson, Json.asStr,
        parseAmount]

/-- Helper: a single-change push whose UPDATE conflicts (under the default
ServerWins strategy) answers applied = 0, conflicts = 1, conflicted_ids =
[id], and writes the resolved data through the update path. -/
theorem push_single_conflict_update (db : DbState) (now today : Int) (user_id : Nat)
    (dev : Option String) (c : PushChange) (d : Json)
    (htab : c.table = "invoices") (hdel : c.deleted = false) (hd : c.data = some d)
    (hrec : record_exists db.invoices c.table c.id user_id = true)
    (hconf : has_conflict db.invoices user_id c.table c.id (d.get "version_vector")
      (((d.get "last_modified").bind Json.asStr).bind parseRfc3339) = true) :
    (push_changes db now today user_id ⟨[c], dev⟩).2 =
      { applied := 0, conflicts := 1, conflicted_ids := [c.id], timestamp := now }
    ∧ (push_changes db now today user_id ⟨[c], dev⟩).1.invoices =
      db.invoices.map (fun r =>
        if r.id = c.id ∧ r.user_id = user_id ∧ r.is_deleted = false
        then updateInvoiceRow now
          (resolve_conflict db.invoices user_id c.table c.id d .ServerWins) r
        else r) := by
  have hrec2 : record_exists db.invoices "invoices" c.id user_id = true := htab ▸ hrec
  have hconf2 : has_conflict db.invoices user_id "invoices" c.id (d.get "version_vector")
      (((d.get "last_modified").bind Json.asStr).bind parseRfc3339) = true := htab ▸ hconf
  constructor <;>
    simp [push_changes, pushStep, apply_change, hdel, hd, hrec, hconf, hrec2, hconf2,
      htab, apply_update, record_sync_change]

/-- C3 (counterexample): server invoice with `last_modified = 120`; the
client pushes an UPDATE carrying `last_modified = "110"`, which conflicts
and is resolved ServerWins.  The response is `applied = 0, conflicts = 1,
conflicted_ids = [1]` as the claim says, but the stored row is NOT left
unchanged: its `last_modified` is refreshed from 120 to `NOW()` (= 200) by
the resolution write-back, contradicting the claim's "its last_modified is
not refreshed by the resolution". -/
theorem push_conflict_serverwins_counterexample :
    (push_changes ⟨[mkRow 1 7], [], 0⟩ 200 20 7
      ⟨[⟨"invoices", 1, some (.obj (.cons "last_modified" (.str "110") .nil)),
        false, none, none⟩], none⟩).2 =
      { applied := 0, conflicts := 1, conflicted_ids := [1], timestamp := 200 }
    ∧ ((push_changes ⟨[mkRow 1 7], [], 0⟩ 200 20 7
      ⟨[⟨"invoices", 1, some (.obj (.cons "last_modified" (.str "110") .nil)),
        false, none, none⟩], none⟩).1.invoices.map InvoiceRow.last_modified) = [some 200]
    ∧ (mkRow 1 7).last_modified = some 120 := by decide

/-- C3 (amended): when a push UPDATE conflicts under the default ServerWins
strategy and the record exists on the server, the response counts it as a
conflict and not as applied (applied = 0, conflicts = 1, conflicted_ids =
[id]) and the server snapshot is written back through the update path, so
every stored column keeps its server value EXCEPT that `last_modified` and
`updated_at` are refreshed to `NOW()` (and previously-NULL JSON columns are
re-stored as JSON null). -/
theorem push_conflict_serverwins_behavior :
    ∀ (db : DbState) (now today : Int) (user_id : Nat) (dev : Option String)
      (c : PushChange) (d : Json),
    c.table = "invoices" → c.deleted = false → c.data = some d →
    record_exists db.invoices c.table c.id user_id = true →
    has_conflict db.invoices user_id c.table c.id (d.get "version_vector")
      (((d.get "last_modified").bind Json.asStr).bind parseRfc3339) = true →
    ((push_changes db now today user_id ⟨[c], dev⟩).2 =
        { applied := 0, conflicts := 1, conflicted_ids := [c.id], timestamp := now }
     ∧ (push_changes db now today user_id ⟨[c], dev⟩).1.invoices =
        db.invoices.map (fun r =>
          if r.id = c.id ∧ r.user_id = user_id ∧ r.is_deleted = false
          then updateInvoiceRow now
            (resolve_conflict db.invoices user_id c.table c.id d .ServerWins) r
          else r)
     ∧ ∀ r : InvoiceRow,
         parseDecimalStr (toString r.amount) = some r.amount →
         parseDate (toString r.issue_date) = some r.issue_date →
         (∀ dd, r.due_date = some dd → parseDate (toString dd) = some dd) →
         updateInvoiceRow now (invoiceSnapshotJson r) r =
           { r with last_modified := some now, updated_at := now,
                    line_items := some (jsonOfOptJson r.line_items),
                    metadata := some (jsonOfOptJson r.metadata),
                    version_vector := some (jsonOfOptJson r.version_vector) }) := by
  intro db now today user_id dev c d htab hdel hd hrec hconf
  obtain ⟨p1, p2⟩ := push_single_conflict_update db now today user_id dev c d
    htab hdel hd hrec hconf
  exact ⟨p1, p2, fun r h1 h2 h3 => snapshot_update_roundtrip now r h1 h2 h3⟩

/-- C3 witness: the amended behaviour at the concrete conflicting store. -/
theorem push_conflict_serverwins_behavior_witness :
    (push_changes ⟨[mkRow 1 7], [], 0⟩ 200 20 7
      ⟨[⟨"invoices", 1, some (.obj (.cons "last_modified" (.str "110") .nil)),
        false, none, none⟩], none⟩).2 =
      { applied := 0, conflicts := 1, conflicted_ids := [1], timestamp := 200 }
    ∧ updateInvoiceRow 200 (invoiceSnapshotJson (mkRow 1 7)) (mkRow 1 7) =
      { mkRow 1 7 with
          last_modified := some 200
          updated_at := 200
          line_items := some Json.null
          metadata := some Json.null
          version_vector := some Json.null } := by
  have h := push_conflict_serverwins_behavior ⟨[mkRow 1 7], [], 0⟩ 200 20 7 none
    ⟨"invoices", 1, some (.obj (.cons "last_modified" (.str "110") .nil)),
      false, none, none⟩
    (.obj (.cons "last_modified" (.str "110") .nil))
    rfl rfl rfl (by decide) (by decide)
  exact ⟨h.1, h.2.2 (mkRow 1 7) (by decide) (by decide)
    (by intro dd hdd; simp [mkRow] at hdd; subst hdd; decide)⟩

/-- Helper: a single-change push whose UPDATE does not conflict applies the
client data through the update path and answers applied = 1, conflicts = 0. -/
theorem push_single_noconflict_update (db : DbState) (now today : Int)
    (user_id : Nat) (dev : Option String) (c : PushChange) (d : Json)
    (htab : c.table = "invoices") (hdel : c.deleted = false) (hd : c.data = some d)
    (hrec : record_exists db.invoices c.table c.id user_id = true)
    (hconf : has_conflict db.invoices user_id c.table c.id (d.get "version_vector")
      (((d.get "last_modified").bind Json.asStr).bind parseRfc3339) = false) :
    (push_changes db now today user_id ⟨[c], dev⟩).2 =
      { applied := 1, conflicts := 0, conflicted_ids := [], timestamp := now }
    ∧ (push_changes db now today user_id ⟨[c], dev⟩).1.invoices =
      db.invoices.map (fun r =>
        if r.id = c.id ∧ r.user_id = user_id ∧ r.is_deleted = false
        then updateInvoiceRow now d r else r) := by
  have hrec2 : record_exists db.invoices "invoices" c.id user_id = true := htab ▸ hrec
  have hconf2 : has_conflict db.invoices user_id "invoices" c.id (d.get "version_vector")
      (((d.get "last_modified").bind Json.asStr).bind parseRfc3339) = false := htab ▸ hconf
  constructor <;>
    simp [push_changes, pushStep, apply_change, hdel, hd, hrec, hconf, hrec2, hconf2,
      htab, apply_update, record_sync_change]

/-- C5 (counterexample): stored invoice with `client_email = "a@example.com"`;
a non-conflicting push UPDATE whose payload does not mention `client_email`
(it carries only `last_modified`) is applied — and the stored `client_email`
is CLEARED to NULL, contradicting the claim's "any field absent from the
payload keeps its previous stored value". -/
theorem push_update_absent_field_counterexample :
    (push_changes ⟨[mkRow 1 7], [], 0⟩ 200 20 7
      ⟨[⟨"invoices", 1, some (.obj (.cons "last_modified" (.str "120") .nil)),
        false, none, none⟩], none⟩).2 =
      { applied := 1, conflicts := 0, conflicted_ids := [], timestamp := 200 }
    ∧ ((push_changes ⟨[mkRow 1 7], [], 0⟩ 200 20 7
      ⟨[⟨"invoices", 1, some (.obj (.cons "last_modified" (.str "120") .nil)),
        false, none, none⟩], none⟩).1.invoices.map InvoiceRow.client_email) = [none]
    ∧ (mkRow 1 7).client_email = some "a@example.com"
    ∧ ((Json.obj (.cons "last_modified" (.str "120") .nil)).get "client_email") = none := by
  decide

/-- C5 (amended): for a non-conflicting push UPDATE of an invoice, the
absent-field-keeps-previous-value rule holds only for the COALESCE columns
invoice_number, client_name, amount, currency, status and issue_date (where
a present-but-null field also keeps the old value); the columns
client_email, due_date, description, line_items, metadata and
version_vector are instead overwritten with the payload's value on every
update, so an absent field clears them, present-but-null clears
client_email/due_date/description, and present-but-null stores a JSON null
in line_items/metadata. -/
theorem push_update_partial_update_semantics :
    ∀ (db : DbState) (now today : Int) (user_id : Nat) (dev : Option String)
      (c : PushChange) (d : Json),
    c.table = "invoices" → c.deleted = false → c.data = some d →
    record_exists db.invoices c.table c.id user_id = true →
    has_conflict db.invoices user_id c.table c.id (d.get "version_vector")
      (((d.get "last_modified").bind Json.asStr).bind parseRfc3339) = false →
    ((push_changes db now today user_id ⟨[c], dev⟩).2 =
        { applied := 1, conflicts := 0, conflicted_ids := [], timestamp := now }
     ∧ (push_changes db now today user_id ⟨[c], dev⟩).1.invoices =
        db.invoices.map (fun r =>
          if r.id = c.id ∧ r.user_id = user_id ∧ r.is_deleted = false
          then updateInvoiceRow now d r else r)
     ∧ ∀ r : InvoiceRow,
         (d.get "invoice_number" = none →
           (updateInvoiceRow now d r).invoice_number = r.invoice_number)
         ∧ (d.get "client_name" = none →
           (updateInvoiceRow now d r).client_name = r.client_name)
         ∧ (d.get "amount" = none → (updateInvoiceRow now d r).amount = r.amount)
         ∧ (d.get "currency" = none → (updateInvoiceRow now d r).currency = r.currency)
         ∧ (d.get "status" = none → (updateInvoiceRow now d r).status = r.status)
         ∧ (d.get "issue_date" = none →
           (updateInvoiceRow now d r).issue_date = r.issue_date)
         ∧ (updateInvoiceRow now d r).client_email = (d.get "client_email").bind Json.asStr
         ∧ (updateInvoiceRow now d r).due_date =
             ((d.get "due_date").bind Json.asStr).bind parseDate
         ∧ (updateInvoiceRow now d r).description = (d.get "description").bind Json.asStr
         ∧ (updateInvoiceRow now d r).line_items = d.get "line_items"
         ∧ (updateInvoiceRow now d r).metadata = d.get "metadata") := by
  intro db now today user_id dev c d htab hdel hd hrec hconf
  obtain ⟨p1, p2⟩ := push_single_noconflict_update db now today user_id dev c d
    htab hdel hd hrec hconf
  refine ⟨p1, p2, fun r => ?_⟩
  refine ⟨fun h => ?_, fun h => ?_, fun h => ?_, fun h => ?_, fun h => ?_,
    fun h => ?_, ?_, ?_, ?_, ?_, ?_⟩ <;>
    simp [updateInvoiceRow, *]

/-- C5 witness: the amended behaviour at a concrete non-conflicting update
whose payload carries only `last_modified`. -/
theorem push_update_partial_update_semantics_witness :
    (push_changes ⟨[mkRow 1 7], [], 0⟩ 200 20 7
      ⟨[⟨"invoices", 1, some (.obj (.cons "last_modified" (.str "120") .nil)),
        false, none, none⟩], none⟩).2 =
      { applied := 1, conflicts := 0, conflicted_ids := [], timestamp := 200 }
    ∧ (updateInvoiceRow 200 (.obj (.cons "last_modified" (.str "120") .nil))
        (mkRow 1 7)).client_email = none
    ∧ (updateInvoiceRow 200 (.obj (.cons "last_modified" (.str "120") .nil))
        (mkRow 1 7)).invoice_number = (mkRow 1 7).invoice_number := by
  have h := push_update_partial_update_semantics ⟨[mkRow 1 7], [], 0⟩ 200 20 7 none
    ⟨"invoices", 1, some (.obj (.cons "last_modified" (.str "120") .nil)),
      false, none, none⟩
    (.obj (.cons "last_modified" (.str "120") .nil))
    rfl rfl rfl (by decide) (by decide)
  refine ⟨h.1, ?_, ?_⟩
  · rw [(h.2.2 (mkRow 1 7)).2.2.2.2.2.2.1]
    decide
  · exact (h.2.2 (mkRow 1 7)).1 (by decide)

/-- C6 (counterexample): stored invoice whose `version_vector` is
`{"d1": 5}`; a non-conflicting push UPDATE whose payload has no
`version_vector` field is applied — and the stored vector is cleared to
NULL, so the entry `d1 ↦ 5` is removed, contradicting "no entry of the
stored version_vector ever decreases / is never removed". -/
theorem push_update_version_vector_counterexample :
    (push_changes ⟨[{ mkRow 1 7 with
        version_vector := some (.obj (.cons "d1" (.num 5) .nil)) }], [], 0⟩ 200 20 7
      ⟨[⟨"invoices", 1, some (.obj (.cons "last_modified" (.str "120") .nil)),
        false, none, none⟩], none⟩).2 =
      { applied := 1, conflicts := 0, conflicted_ids := [], timestamp := 200 }
    ∧ ((push_changes ⟨[{ mkRow 1 7 with
        version_vector := some (.obj (.cons "d1" (.num 5) .nil)) }], [], 0⟩ 200 20 7
      ⟨[⟨"invoices", 1, some (.obj (.cons "last_modified" (.str "120") .nil)),
        false, none, none⟩], none⟩).1.invoices.map InvoiceRow.version_vector) = [none]
    ∧ ({ mkRow 1 7 with
        version_vector := some (.obj (.cons "d1" (.num 5) .nil)) } :
        InvoiceRow).version_vector = some (.obj (.cons "d1" (.num 5) .nil)) := by
  decide

/-- C6 (amended): a (non-conflicting) push UPDATE does not merge the
client's version vector into the server's by pointwise max — it overwrites
the stored `version_vector` with the payload's `version_vector` field
verbatim, clearing it when the field is absent; existing entries can
therefore be removed or reduced by an update. -/
theorem push_update_overwrites_version_vector :
    ∀ (db : DbState) (now today : Int) (user_id : Nat) (dev : Option String)
      (c : PushChange) (d : Json),
    c.table = "invoices" → c.deleted = false → c.data = some d →
    record_exists db.invoices c.table c.id user_id = true →
    has_conflict db.invoices user_id c.table c.id (d.get "version_vector")
      (((d.get "last_modified").bind Json.asStr).bind parseRfc3339) = false →
    ((push_changes db now today user_id ⟨[c], dev⟩).1.invoices =
        db.invoices.map (fun r =>
          if r.id = c.id ∧ r.user_id = user_id ∧ r.is_deleted = false
          then updateInvoiceRow now d r else r)
     ∧ ∀ r : InvoiceRow,
         (updateInvoiceRow now d r).version_vector = d.get "version_vector") := by
  intro db now today user_id dev c d htab hdel hd hrec hconf
  obtain ⟨-, p2⟩ := push_single_noconflict_update db now today user_id dev c d
    htab hdel hd hrec hconf
  exact ⟨p2, fun r => by simp [updateInvoiceRow]⟩

/-- C6 witness: at the concrete store, the update clears the stored vector. -/
theorem push_update_overwrites_version_vector_witness :
    (push_changes ⟨[{ mkRow 1 7 with
        version_vector := some (.obj (.cons "d1" (.num 5) .nil)) }], [], 0⟩ 200 20 7
      ⟨[⟨"invoices", 1, some (.obj (.cons "last_modified" (.str "120") .nil)),
        false, none, none⟩], none⟩).1.invoices =
      [updateInvoiceRow 200 (.obj (.cons "last_modified" (.str "120") .nil))
        { mkRow 1 7 with version_vector := some (.obj (.cons "d1" (.num 5) .nil)) }]
    ∧ (updateInvoiceRow 200 (.obj (.cons "last_modified" (.str "120") .nil))
        { mkRow 1 7 with version_vector := some (.obj (.cons "d1" (.num 5) .nil)) }
        ).version_vector = none := by
  have h := push_update_overwrites_version_vector
    ⟨[{ mkRow 1 7 with version_vector := some (.obj (.cons "d1" (.num 5) .nil)) }],
      [], 0⟩ 200 20 7 none
    ⟨"invoices", 1, some (.obj (.cons "last_modified" (.str "120") .nil)),
      false, none, none⟩
    (.obj (.cons "last_modified" (.str "120") .nil))
    rfl rfl rfl (by decide) (by decide)
  refine ⟨?_, ?_⟩
  · rw [h.1]
    decide
  · rw [h.2 { mkRow 1 7 with
        version_vector := some (.obj (.cons "d1" (.num 5) .nil)) }]
    decide

/-- C4: The LastWriteWins resolver does not compare timestamps at all — it
returns the client data unconditionally (the code's own comment: "for now,
use client version; in a full implementation, we'd compare last_modified
timestamps").  At this input the server's `last_modified` (200) is strictly
greater than the client's (100), yet the resolver still answers the client
data, contradicting "whichever ... has the higher last_modified timestamp
wins" (and no device-id tie-break exists anywhere in the resolver). -/
theorem lastwritewins_returns_client_data :
    resolve_conflict [{ mkRow 1 7 with last_modified := some 200 }] 7 "invoices" 1
      (.obj (.cons "last_modified" (.str "100") .nil)) .LastWriteWins =
      .obj (.cons "last_modified" (.str "100") .nil)
    ∧ (((Json.obj (.cons "last_modified" (.str "100") .nil)).get
        "last_modified").bind Json.asStr).bind parseRfc3339 = some 100
    ∧ ({ mkRow 1 7 with last_modified := some 200 } : InvoiceRow).last_modified
        = some 200 := by
  decide

/-- C7: The pull engine does pick `new_data` for INSERT/UPDATE and
`old_data` for DELETE — but the push engine's `record_sync_change` never
populates `old_data` (its INSERT lists no such column), so a push DELETE
journals a row with `old_data = NULL`, and the pull loop's
`if let Some(data)` silently drops it: after deleting invoice 1, the pull's
`invoices.deleted` bucket is empty instead of containing record 1.  The
spec ("After DELETE of record R, subsequent pulls place R in the `deleted`
bucket") and the model's own `old_data` documentation ("Previous state (for
UPDATE/DELETE)") describe the intended behaviour; the code cannot propagate
deletions at all. -/
theorem push_delete_not_in_pull_deleted_bucket :
    ((push_changes ⟨[mkRow 1 7], [], 0⟩ 200 20 7
        ⟨[⟨"invoices", 1, none, true, none, none⟩], none⟩).1.sync_changes.map
      (fun c => (c.operation, c.old_data, c.record_id))) = [(.Delete, none, 1)]
    ∧ snapshotOf ⟨7, "invoices", 1, .Delete, none, none, "unknown", 200, none,
        true, 0⟩ = none
    ∧ get_changes_bucket
        (push_changes ⟨[mkRow 1 7], [], 0⟩ 200 20 7
          ⟨[⟨"invoices", 1, none, true, none, none⟩], none⟩).1
        7 none "invoices" "deleted" = []
    ∧ ((push_changes ⟨[mkRow 1 7], [], 0⟩ 200 20 7
        ⟨[⟨"invoices", 1, none, true, none, none⟩], none⟩).1.invoices.map
      InvoiceRow.is_deleted) = [true] := by
  decide

/-- C9's concrete invoice: empty-string client email, chase state Overdue. -/
def emptyEmailInvoice : InvoiceRow :=
  { mkRow 1 7 with
      client_email := some ""
      metadata := some (.obj (.cons "chase_state" (.str "overdue") .nil)) }

/-- C9 (counterexample): an invoice whose `client_email` is the EMPTY STRING
and whose chase state is Overdue (so the action is SendPoliteReminder) is
processed successfully: the executor only checks that `client_email` is
present (`ok_or_else` on the `Option`), so the email is generated and
"delivered" to the empty address instead of the invoice failing as the
claim requires for an empty-string email. -/
theorem executor_empty_email_counterexample :
    ((process_invoice [emptyEmailInvoice] 300 20 emptyEmailInvoice
      ).toOption.map (fun res => res.1.map SentEmail.recipient)) = some [""]
    ∧ emptyEmailInvoice.client_email = some "" := by
  decide

/-- C9 (amended): for an invoice whose chase action is SendPoliteReminder or
SendFirmReminder, the executor requires a PRESENT client email: when
`client_email` is NULL the invoice fails with "No client email ..." and no
email is sent, and when `client_email` is any present string — the empty
string included — the email is generated, delivered to that address, and
the new state persisted.  (`process_invoice` reaches `send_chase_email`
with tone "polite"/"firm" exactly when the transition's action is the
respective reminder.) -/
theorem executor_email_requirement :
    ∀ (invoices : List InvoiceRow) (now today : Int) (inv : InvoiceRow)
      (tone : String) (new_state : ChaseState),
    (inv.client_email = none →
      send_chase_email invoices now inv tone new_state =
        .error ("No client email for invoice " ++ inv.invoice_number))
    ∧ (∀ s, inv.client_email = some s →
      send_chase_email invoices now inv tone new_state =
        .ok ([{ recipient := s,
                subject := (generate_email tone (chaseContext inv)).1,
                body := (generate_email tone (chaseContext inv)).2 }],
             update_chase_state invoices now inv.id new_state))
    ∧ ((ChaseStateMachine.transition (get_chase_state inv today)
          (calculate_days_overdue inv today)).2 = .SendPoliteReminder →
        process_invoice invoices now today inv =
          send_chase_email invoices now inv "polite"
            (ChaseStateMachine.transition (get_chase_state inv today)
              (calculate_days_overdue inv today)).1)
    ∧ ((ChaseStateMachine.transition (get_chase_state inv today)
          (calculate_days_overdue inv today)).2 = .SendFirmReminder →
        process_invoice invoices now today inv =
          send_chase_email invoices now inv "firm"
            (ChaseStateMachine.transition (get_chase_state inv today)
              (calculate_days_overdue inv today)).1) := by
  intro invoices now today inv tone new_state
  refine ⟨fun h => ?_, fun s h => ?_, fun h => ?_, fun h => ?_⟩
  · simp [send_chase_email, h]
  · simp [send_chase_email, h]
  · simp [process_invoice, h]
  · simp [process_invoice, h]

/-- C9 witness: the amended behaviour at two concrete invoices — one with no
client email (fails, no email) and one with a present email (delivered,
state persisted). -/
theorem executor_email_requirement_witness :
    send_chase_email [] 300 { mkRow 1 7 with client_email := none } "polite"
      .ChasingLevel1 = .error "No client email for invoice INV-1"
    ∧ send_chase_email [] 300 (mkRow 1 7) "polite" .ChasingLevel1 =
      .ok ([{ recipient := "a@example.com",
              subject := (generate_email "polite" (chaseContext (mkRow 1 7))).1,
              body := (generate_email "polite" (chaseContext (mkRow 1 7))).2 }],
           update_chase_state [] 300 1 .ChasingLevel1) := by
  refine ⟨?_, ?_⟩
  · have h := (executor_email_requirement [] 300 20
      { mkRow 1 7 with client_email := none } "polite" .ChasingLevel1).1 rfl
    exact h
  · have h := (executor_email_requirement [] 300 20 (mkRow 1 7) "polite"
      .ChasingLevel1).2.1 "a@example.com" rfl
    exact h
